import Mathlib

/-
Verification development for the qldq-templates lexer/parser front-end.

The Lean definitions below are a shallow embedding of the two Python
source files `src/lexer.py` and `src/parser.py`:
  * pure functions become Lean functions;
  * the in-place mutation of the token list during operator fusion is
    modeled by explicit state passing (`fuseState` returns the final
    contents of the caller's list, with `none` standing for Python's
    `None` entries);
  * Python exceptions that escape (TypeError from unpacking or
    subscripting `None`, KeyError, AttributeError) are modeled by a
    distinguished `crash` outcome;
  * the recursive precedence parser and the delimiter scan are written
    with an explicit fuel parameter (generous, quadratic in the input
    length); running out of fuel is a separate `outOfFuel` outcome that
    never occurs on the concrete inputs examined here and that no
    theorem below identifies with a real behavior of the program;
  * Python `float` decoding of a numeric literal is modeled by the exact
    decimal value of the literal as a rational number (for the literals
    appearing in the theorems below, the decimal value is exactly
    representable as a binary double, so the model agrees with Python).
-/

set_option maxRecDepth 100000

namespace QLDQ

/-! ## Token model (src/lexer.py, class Token) -/

/-- Decoded payload of a token: Python stores a `str`, `int`, `float`
or `None` in `Token.value`.  Floats are modeled as exact decimal
rationals (see header comment). -/
inductive TValue where
  | str (s : String)
  | intv (n : Int)
  | floatv (q : ℚ)
  | nullv
deriving DecidableEq, Repr

/-- A lexer token: literal text, decoded value, kind tag
("newline", "numeric", "string", "symbol", "word"), 1-based line and
column (src/lexer.py, class Token). -/
structure Token where
  text : String
  value : TValue
  kind : String
  line : Nat
  column : Nat
deriving DecidableEq, Repr

/-! ## Lexer configuration (src/lexer.py, lines 1-16) -/

/-- Grouping separator for numeric literals: the apostrophe character
(src/lexer.py, GRP_SEPR). -/
def GRP_SEPR : Char := Char.ofNat 39

/-- Radix point for numeric literals (src/lexer.py, RADIX_PT). -/
def RADIX_PT : Char := Char.ofNat 46

/-! ## Numeric literal matching (src/lexer.py, num_regex, lines 24-29)

The regex is `\d+(G\d+)*(R\d+(G\d+)*)?` where `G` is the grouping
separator and `R` the radix point; it is matched greedily at the start
of the remaining text.  `takeDigits` munches a maximal digit run;
`groupTailF` munches `(G digits)*` (each iteration consumes at least
two characters, so fuel equal to the input length suffices). -/

def takeDigits : List Char → List Char × List Char
  | [] => ([], [])
  | c :: rest =>
    if c.isDigit then
      let p := takeDigits rest
      (c :: p.1, p.2)
    else ([], c :: rest)

def groupTailF : Nat → List Char → List Char × List Char
  | 0, l => ([], l)
  | Nat.succ fuel, l =>
    match l with
    | sep0 :: c :: rest =>
      if sep0 == GRP_SEPR && c.isDigit then
        let p := takeDigits (c :: rest)
        let q := groupTailF fuel p.2
        (sep0 :: (p.1 ++ q.1), q.2)
      else ([], sep0 :: c :: rest)
    | l2 => ([], l2)

/-- Match the numeric-literal regex at the start of a character list;
return the matched characters and the rest, or `none` if there is no
match (no leading digit). -/
def num_match (l : List Char) : Option (List Char × List Char) :=
  match takeDigits l with
  | ([], _) => none
  | (d :: ds, rest) =>
    let g := groupTailF rest.length rest
    match g.2 with
    | p :: c :: rest2 =>
      if p == RADIX_PT && c.isDigit then
        let fd := takeDigits (c :: rest2)
        let fg := groupTailF fd.2.length fd.2
        some (((d :: ds) ++ g.1) ++ (p :: (fd.1 ++ fg.1)), fg.2)
      else some ((d :: ds) ++ g.1, g.2)
    | _ => some ((d :: ds) ++ g.1, g.2)

/-! ## Numeric decoding (src/lexer.py, TokenStream.next numeric branch,
lines 132-144) -/

/-- `numstr.replace(GRP_SEPR, '')`: strip every grouping separator. -/
def stripSeps (l : List Char) : List Char := l.filter (fun c => c != GRP_SEPR)

/-- Decimal digit run to a natural number (Python `int(canonical)`). -/
def digitsToNat (l : List Char) : Nat :=
  l.foldl (fun acc c => acc * 10 + (c.toNat - 48)) 0

/-- Exact decimal value of a canonical literal containing a radix point
(model of Python `float(canonical)`; see header comment). -/
def floatOfCanonical (l : List Char) : ℚ :=
  let intPart := l.takeWhile (fun c => c != RADIX_PT)
  let fracPart := (l.dropWhile (fun c => c != RADIX_PT)).drop 1
  (digitsToNat intPart : ℚ) + (digitsToNat fracPart : ℚ) / ((10 : ℚ) ^ fracPart.length)

/-- The decoded value determined by a numeric literal's text: strip the
grouping separators, then decode as a float exactly when a radix point
is present and as an integer otherwise (src/lexer.py, lines 139-143). -/
def valueOfNumText (t : String) : TValue :=
  let canonical := stripSeps t.toList
  if canonical.contains RADIX_PT then TValue.floatv (floatOfCanonical canonical)
  else TValue.intv (digitsToNat canonical)

/-- The numeric branch of `TokenStream.__next__` (src/lexer.py, lines
132-144): if the numeric regex matches at the current position, consume
the match and produce a `numeric` token whose value is the decoded
canonical literal. -/
def lex_number (text : String) (line column : Nat) : Option (Token × String) :=
  match num_match text.toList with
  | none => none
  | some (numChars, rest) =>
    some (⟨String.mk numChars, valueOfNumText (String.mk numChars), "numeric", line, column⟩,
          String.mk rest)

/-! ## Token buffer (src/lexer.py, class TokenBuffer, lines 210-249)

The underlying `TokenStream` is abstracted to the interface the buffer
uses: the list of tokens it will still yield before reporting
completion, and whether a continuation supplier (`more`) is configured.
When `hasMore` is true the real stream would call the supplier instead
of reporting completion; `TokenBuffer.complete` refuses before ever
reaching that point, which is the behavior under verification. -/

structure MTokenStream where
  pending : List Token
  hasMore : Bool
deriving DecidableEq, Repr

structure TokenBuffer where
  stream : MTokenStream
  buffer : List Token
  is_complete : Bool
deriving DecidableEq, Repr

/-- `TokenBuffer.__len__` (src/lexer.py, lines 223-227): valid only
once the buffer has been completed, otherwise it raises. -/
def TokenBuffer.length (b : TokenBuffer) : Except String Nat :=
  if b.is_complete then Except.ok b.buffer.length
  else Except.error "length unknown because buffer has not been completed"

/-- The `while (tok := next(self.stream)) is not None` drain loop of
`TokenBuffer.complete` (src/lexer.py, lines 247-248). -/
def drainLoop : MTokenStream → List Token → List Token × MTokenStream
  | ⟨[], hm⟩, buf => (buf, ⟨[], hm⟩)
  | ⟨t :: rest, hm⟩, buf => drainLoop ⟨rest, hm⟩ (buf ++ [t])

/-- `TokenBuffer.complete` (src/lexer.py, lines 244-249): refuses when
the stream has a continuation supplier, otherwise eagerly pulls every
remaining token and seals the buffer. -/
def TokenBuffer.complete (b : TokenBuffer) : Except String TokenBuffer :=
  if b.stream.hasMore then
    Except.error "cannot complete buffer while self.stream.more is not None"
  else
    let p := drainLoop b.stream b.buffer
    Except.ok { stream := p.2, buffer := p.1, is_complete := true }

/-! ## Operator table (src/parser.py, OPERATORS, lines 7-28)

Arranged from high to low precedence.  A level is an associativity tag
("left", "right", "prefix", "postfix") together with a list of
(spelling, semantic name) pairs; the spelling `none` is the invisible
function-application operator. -/

def OPERATORS : List (String × List (Option String × String)) := [
  ("left",    [(some ".",  "dot2")]),
  ("postfix", [(some "?",  "opt1")]),
  ("left",    [(none,      "appl2")]),
  ("right",   [(some "^",  "expo2")]),
  ("prefix",  [(some "+",  "plus1"), (some "-",  "minus1"), (some "!", "not1")]),
  ("left",    [(some "*",  "mul2"),  (some "/",  "div2"),   (some "%", "mod2")]),
  ("left",    [(some "+",  "plus2"), (some "-",  "minus2")]),
  ("left",    [(some "&",  "and2")]),
  ("left",    [(some "|",  "or2"),   (some "~",  "xor2")]),
  ("right",   [(some "++", "cat2"),  (some "::", "cons2")]),
  ("left",    [(some ">=", "geq2"),  (some "<=", "leq2"), (some ">", "gt2"), (some "<", "lt2")]),
  ("left",    [(some "=",  "eq2"),   (some "==", "deq2"), (some "!=", "neq2")]),
  ("right",   [(some "&&", "land2")]),
  ("right",   [(some "||", "lor2")]),
  ("right",   [(some "$",  "seq2")]),
  ("left",    [(some ":",  "typ2")]),
  ("left",    [(some ",",  "com2")]),
  ("right",   [(some ":=", "def2")]),
  ("right",   [(some "<-", "assn2")]),
  ("left",    [(some ";",  "sem2")])
]

/-! ## Derived operator dictionaries (src/parser.py, lines 32-64)

Python iterates `for prec in range(len(OPERATORS))` with
`level = OPERATORS[-1 - prec]`, so the LAST level gets rank 0 and each
earlier level one more (higher rank = tighter binding).  The dicts are
modeled as association lists; no spelling occurs twice within one dict
in this configuration, so lookup order is immaterial. -/

/-- The level holding rank `prec`: `OPERATORS[-1 - prec]`. -/
def levelAt (prec : Nat) : String × List (Option String × String) :=
  OPERATORS.getD (OPERATORS.length - 1 - prec) ("", [])

/-- `prefix_ops : {spelling -> (rank, name)}`. -/
def prefix_ops : List (String × Nat × String) :=
  (List.range OPERATORS.length).foldl (fun acc prec =>
    let level := levelAt prec
    if level.1 == "prefix" then
      acc ++ level.2.filterMap (fun op => op.1.map (fun s => (s, prec, op.2)))
    else acc) []

/-- `postfix_ops : {spelling -> (rank, name)}`. -/
def postfix_ops : List (String × Nat × String) :=
  (List.range OPERATORS.length).foldl (fun acc prec =>
    let level := levelAt prec
    if level.1 == "postfix" then
      acc ++ level.2.filterMap (fun op => op.1.map (fun s => (s, prec, op.2)))
    else acc) []

/-- `binary_ops : {spelling-or-None -> (rank, right-assoc, name)}`. -/
def binary_ops : List (Option String × Nat × Bool × String) :=
  (List.range OPERATORS.length).foldl (fun acc prec =>
    let level := levelAt prec
    if level.1 == "left" || level.1 == "right" then
      acc ++ level.2.map (fun op => (op.1, prec, level.1 == "right", op.2))
    else acc) []

/-- Spellings longer than one character (src/parser.py, lines 57-64). -/
def multichar_ops : List String :=
  (List.range OPERATORS.length).foldl (fun acc prec =>
    let level := levelAt prec
    acc ++ level.2.filterMap (fun op =>
      op.1.bind (fun s => if s.length > 1 then some s else none))) []

/-- Single-character spellings (src/parser.py, lines 57-64). -/
def singlechar_ops : List String :=
  (List.range OPERATORS.length).foldl (fun acc prec =>
    let level := levelAt prec
    acc ++ level.2.filterMap (fun op =>
      op.1.bind (fun s => if s.length == 1 then some s else none))) []

/-! ## Parse trees and failures (src/parser.py, lines 68-151) -/

/-- An element of a parse sequence: either a leaf `Token` or a
`ParseTree` with a label and children (src/parser.py, class ParseTree).
This is the tagged union over which the parser operates. -/
inductive PElem where
  | tok (t : Token)
  | tree (label : String) (children : List PElem)
deriving Repr

/-- `ParseFailure` (src/parser.py, lines 106-120): a message, the token
or subtree to highlight, and the list of context labels (the
constructor initializes `labels` to `[]`; `mark` appends).  Python
accepts `None` as a label (filtered out at display time), hence
`Option String`. -/
structure ParseFailure where
  message : String
  highlight : PElem
  labels : List (Option String)

/-- `ParseFailure.mark` (src/parser.py, lines 119-120): append one
context label. -/
def ParseFailure.mark (f : ParseFailure) (label : Option String) : ParseFailure :=
  { f with labels := f.labels ++ [label] }

mutual

/-- Does the label `lab` occur anywhere in a tree? (used to state that
no `parentheses` node appears in an output tree). -/
def containsLabel (lab : String) : PElem → Bool
  | .tok _ => false
  | .tree l children => l == lab || containsLabelList lab children

/-- List version of `containsLabel`. -/
def containsLabelList (lab : String) : List PElem → Bool
  | [] => false
  | e :: rest => containsLabel lab e || containsLabelList lab rest

end

/-- The string a sequence element contributes when Python reads
`.value` expecting a string (symbol tokens always carry their spelling
as a string value; the default is never consulted on real streams). -/
def tokValStr (t : Token) : String :=
  match t.value with
  | .str s => s
  | _ => ""

/-- `isinstance(e, Token) and e.kind == 'symbol'`. -/
def elemIsSymbol : PElem → Bool
  | .tok t => t.kind == "symbol"
  | .tree _ _ => false

/-- The dictionary key `e.value` of a sequence element, when it is a
string (only symbol tokens produce string values, and the parser only
looks values up after checking `kind == 'symbol'`). -/
def elemSymVal : PElem → Option String
  | .tok t => match t.value with | .str s => some s | _ => none
  | .tree _ _ => none

/-! ## Precedence parser (src/parser.py, _parse_operators, lines 155-212)

Python's `_parse_operators` can return a `ParseFailure`, a pair
`(tree-or-token, consumed-count)`, or — for an empty input sequence —
bare `None` (line 160).  A caller that unpacks or subscripts that
`None` raises an uncaught TypeError, modeled by `crash`.  The while
loop (lines 177-211) becomes `parseLoopF`; the shared tail of the
binary and implicit-application branches (lines 199-210) is
`parseLoopApp`.  All three are driven by a fuel parameter. -/

inductive PResult where
  | fail (f : ParseFailure)
  | ok (e : PElem) (n : Nat)
  | pyNone
  | crash
  | outOfFuel

/-- Result of `parse_operators`: the parsed element, a failure, or a
modeled uncaught exception. -/
inductive POResult where
  | fail (f : ParseFailure)
  | ok (e : PElem)
  | crash
  | outOfFuel

/-- Result of `parse_interior` / `parse`: a list of tokens and/or
trees, a failure, or a modeled uncaught exception. -/
inductive IResult where
  | fail (f : ParseFailure)
  | ok (l : List PElem)
  | crash
  | outOfFuel

mutual

/-- `_parse_operators(seq, min_precedence)` (src/parser.py, lines
155-175 plus the loop): empty input returns Python `None`; a leading
prefix operator parses its operand at the operator's own rank; a
leading symbol registered only as a binary operator fails. -/
def parseOpsF : Nat → List PElem → Nat → PResult
  | 0, _, _ => PResult.outOfFuel
  | Nat.succ fuel, seq, minPrec =>
    match seq with
    | [] => PResult.pyNone
    | first :: rest =>
      if elemIsSymbol first then
        match (elemSymVal first).bind (fun s => List.lookup s prefix_ops) with
        | some (precedence, name) =>
          match parseOpsF fuel rest precedence with
          | PResult.fail f => PResult.fail f
          | PResult.pyNone => PResult.crash
          | PResult.crash => PResult.crash
          | PResult.outOfFuel => PResult.outOfFuel
          | PResult.ok rhs num =>
            parseLoopF fuel seq minPrec (PElem.tree name [rhs]) (1 + num)
        | none =>
          match (elemSymVal first).bind (fun s => List.lookup (some s) binary_ops) with
          | some _ =>
            PResult.fail ⟨"binary operator missing left-hand argument", first, []⟩
          | none => parseLoopF fuel seq minPrec first 1
      else parseLoopF fuel seq minPrec first 1
termination_by structural fuel => fuel

/-- The `while True` loop of `_parse_operators` (src/parser.py, lines
177-211), with `lhs` and `index` as explicit state. -/
def parseLoopF : Nat → List PElem → Nat → PElem → Nat → PResult
  | 0, _, _, _, _ => PResult.outOfFuel
  | Nat.succ fuel, seq, minPrec, lhs, index =>
    if hidx : index < seq.length then
      let op := seq.get ⟨index, hidx⟩
      if elemIsSymbol op then
        match (elemSymVal op).bind (fun s => List.lookup s postfix_ops) with
        | some (precedence, name) =>
          if precedence < minPrec then PResult.ok lhs index
          else parseLoopF fuel seq minPrec (PElem.tree name [lhs]) (index + 1)
        | none =>
          match (elemSymVal op).bind (fun s => List.lookup (some s) binary_ops) with
          | some (precedence, rassoc, name) =>
            if precedence < minPrec then PResult.ok lhs index
            else if seq.length ≤ index + 1 then
              PResult.fail ⟨"binary operator missing right-hand argument", op, []⟩
            else
              match parseOpsF fuel (seq.drop (index + 1))
                  (precedence + (if rassoc then 0 else 1)) with
              | PResult.fail f => PResult.fail f
              | PResult.pyNone => PResult.crash
              | PResult.crash => PResult.crash
              | PResult.outOfFuel => PResult.outOfFuel
              | PResult.ok rhs num =>
                parseLoopF fuel seq minPrec (PElem.tree name [lhs, rhs]) (index + 1 + num)
          | none => parseLoopApp fuel seq minPrec lhs index
      else parseLoopApp fuel seq minPrec lhs index
    else PResult.ok lhs index
termination_by structural fuel => fuel

/-- The implicit-application branch of the loop (src/parser.py, lines
199-210): `binary_ops[None]` would raise a KeyError (modeled `crash`)
were application not registered; otherwise recurse over the remainder
at the application rank adjusted by associativity. -/
def parseLoopApp : Nat → List PElem → Nat → PElem → Nat → PResult
  | 0, _, _, _, _ => PResult.outOfFuel
  | Nat.succ fuel, seq, minPrec, lhs, index =>
    match List.lookup none binary_ops with
    | none => PResult.crash
    | some (precedence, rassoc, name) =>
      if precedence < minPrec then PResult.ok lhs index
      else
        match parseOpsF fuel (seq.drop index) (precedence + (if rassoc then 0 else 1)) with
        | PResult.fail f => PResult.fail f
        | PResult.pyNone => PResult.crash
        | PResult.crash => PResult.crash
        | PResult.outOfFuel => PResult.outOfFuel
        | PResult.ok rhs num =>
          parseLoopF fuel seq minPrec (PElem.tree name [lhs, rhs]) (index + num)
termination_by structural fuel => fuel

end

/-- Fuel budget used by the top-level entry points: generous enough for
every computation examined in this development. -/
def opsFuel (n : Nat) : Nat := (n + 2) * (n + 2)

/-- `parse_operators(seq)` (src/parser.py, lines 215-219): run the
precedence parser at minimum rank 0 and take the first component of
the returned pair.  When `_parse_operators` returned `None` (empty
input), `parse[0]` raises an uncaught TypeError, modeled `crash`. -/
def parse_operators (seq : List PElem) : POResult :=
  match parseOpsF (opsFuel seq.length) seq 0 with
  | PResult.fail f => POResult.fail f
  | PResult.ok e _ => POResult.ok e
  | PResult.pyNone => POResult.crash
  | PResult.crash => POResult.crash
  | PResult.outOfFuel => POResult.outOfFuel

/-- `parse_interior(container, seq)` (src/parser.py, lines 222-234):
parse the flat sequence; bracket and brace interiors are wrapped in a
new tree labeled `brackets`/`braces`, every other container (root and
parentheses) passes the parsed expression through unchanged. -/
def parse_interior (container : String) (seq : List PElem) : IResult :=
  match parse_operators seq with
  | POResult.fail f => IResult.fail f
  | POResult.crash => IResult.crash
  | POResult.outOfFuel => IResult.outOfFuel
  | POResult.ok e =>
    if container == "brackets" || container == "braces" then
      IResult.ok [PElem.tree container [e]]
    else IResult.ok [e]

/-! ## Multi-character operator fusion (src/parser.py, lines 237-254)

Python mutates the caller's list in place: the first token of a fused
pair is overwritten with the fused token and the second with `None`;
afterwards `seq = [tok for tok in seq if tok is not None]` rebinds a
NEW filtered list, leaving the caller's list in the mutated state.
`fuseState` is the explicit-state model of the loop: it returns the
final contents of the caller's list (with `none` for Python `None`). -/

/-- `adjacent(tok1, tok2)` (src/parser.py, lines 237-238). -/
def adjacent (tok1 tok2 : Token) : Bool :=
  tok2.line == tok1.line && ((tok2.column : Int) - (tok1.column : Int)).natAbs == 1

/-- The fused token `Token(concat, concat, 'symbol', tok1.line,
tok1.column)` (src/parser.py, line 248). -/
def fuseTok (tok1 tok2 : Token) : Token :=
  let concat := tokValStr tok1 ++ tokValStr tok2
  ⟨concat, TValue.str concat, "symbol", tok1.line, tok1.column⟩

/-- The fusion condition of src/parser.py, lines 246-247: two symbol
tokens, adjacent, whose concatenated value is a registered
multi-character spelling. -/
def fusable (tok1 tok2 : Token) : Bool :=
  tok1.kind == "symbol" && tok2.kind == "symbol" && adjacent tok1 tok2 &&
    multichar_ops.contains (tokValStr tok1 ++ tokValStr tok2)

/-- Final contents of the caller's list after the fusion loop
(src/parser.py, lines 244-252).  After a fusion the loop skips the
overwritten `none` slot, so each original token takes part in at most
one fusion and fusions never chain within the pass. -/
def fuseState : List Token → List (Option Token)
  | tok1 :: tok2 :: rest =>
    if fusable tok1 tok2 then some (fuseTok tok1 tok2) :: none :: fuseState rest
    else some tok1 :: fuseState (tok2 :: rest)
  | l => l.map some

/-- The rebound filtered sequence `[tok for tok in seq if tok is not
None]` (src/parser.py, line 254). -/
def fuseResult (seq : List Token) : List Token :=
  (fuseState seq).filterMap id

/-- The contents of the caller's list object after `parse` returns:
the fusion loop runs (and mutates) only when multi-character operators
are configured; the subsequent filtering rebinds a new list and never
restores the caller's list (src/parser.py, lines 241-254). -/
def parse_mutated_input (seq : List Token) : List (Option Token) :=
  if multichar_ops.length > 0 then fuseState seq else seq.map some

/-! ## Delimiter resolution (src/parser.py, lines 256-304) -/

def left_delims : List String := ["(", "[", "\x7b"]

def right_delims : List String := [")", "]", "\x7d"]

/-- `corresponding` (src/parser.py, line 259). -/
def correspondingCloser (s : String) : Option String :=
  List.lookup s [("(", ")"), ("[", "]"), ("\x7b", "\x7d")]

/-- `delim_name` (src/parser.py, line 260). -/
def delim_name (s : String) : Option String :=
  List.lookup s [(")", "parentheses"), ("]", "brackets"), ("\x7d", "braces")]

/-- Outcome of the delimiter scan loop: a failure, a modeled uncaught
exception, or the final flat sequence together with the remaining
stack of unclosed (position, expected-closer) pairs. -/
inductive DelimScan where
  | fail (f : ParseFailure)
  | crash
  | outOfFuel
  | done (seq : List PElem) (stack : List (Nat × String))

/-- The delimiter scan loop of `parse` (src/parser.py, lines 262-297),
with the sequence, stack and index as explicit state.  The stack is
kept most-recent-first (Python appends and inspects `stack[-1]`).
Reading `.kind` off a spliced `ParseTree` would raise AttributeError
in Python (modeled `crash`); the scan never does so because every
splice leaves the index just past the replacement.  On a matching
closer, the interior `seq[left_index+1:index]` is parsed, the
replacement is spliced in place of the bracketed span, and scanning
resumes immediately after the splice (the index arithmetic of line 294
simplifies to `left_index + len(replacement)` after the final
`index += 1`). -/
def delimLoopF : Nat → List PElem → List (Nat × String) → Nat → DelimScan
  | 0, _, _, _ => DelimScan.outOfFuel
  | Nat.succ fuel, seq, stack, index =>
    if hidx : index < seq.length then
      match seq.get ⟨index, hidx⟩ with
      | PElem.tree _ _ => DelimScan.crash
      | PElem.tok token =>
        if token.kind != "symbol" ||
            !((left_delims ++ right_delims).contains (tokValStr token)) then
          delimLoopF fuel seq stack (index + 1)
        else if left_delims.contains (tokValStr token) then
          match correspondingCloser (tokValStr token) with
          | some closer => delimLoopF fuel seq ((index, closer) :: stack) (index + 1)
          | none => DelimScan.crash
        else
          match stack with
          | [] => DelimScan.fail ⟨"unpaired delimiter", PElem.tok token, []⟩
          | (left_index, expected_delim) :: stackRest =>
            if tokValStr token != expected_delim then
              DelimScan.fail ⟨"mismatched or unpaired delimiter", PElem.tok token, []⟩
            else
              let interior := (seq.drop (left_index + 1)).take (index - (left_index + 1))
              match parse_interior
                  ((delim_name (tokValStr token)).getD "") interior with
              | IResult.fail f => DelimScan.fail f
              | IResult.crash => DelimScan.crash
              | IResult.outOfFuel => DelimScan.outOfFuel
              | IResult.ok replacement =>
                let seq2 := seq.take left_index ++ replacement ++ seq.drop (index + 1)
                delimLoopF fuel seq2 stackRest (left_index + replacement.length)
    else DelimScan.done seq stack

/-- A placeholder token for the out-of-range `seq[left_index]` access
(never consulted: stack positions are always in range). -/
def dummyTok : Token := ⟨"", TValue.nullv, "", 0, 0⟩

/-- `parse(seq)` (src/parser.py, lines 241-304): fuse multi-character
operators, resolve delimiters, report an unpaired opening delimiter if
the stack is non-empty after the scan, and finally parse the flat
sequence as the `root` interior. -/
def parse (seq : List Token) : IResult :=
  let fused := if multichar_ops.length > 0 then fuseResult seq else seq
  let pseq : List PElem := fused.map PElem.tok
  match delimLoopF (opsFuel pseq.length) pseq [] 0 with
  | DelimScan.fail f => IResult.fail f
  | DelimScan.crash => IResult.crash
  | DelimScan.outOfFuel => IResult.outOfFuel
  | DelimScan.done seq2 stack =>
    match stack with
    | (left_index, _) :: _ =>
      IResult.fail ⟨"unpaired delimiter", seq2.getD left_index (PElem.tok dummyTok), []⟩
    | [] => parse_interior "root" seq2

/-! ## Result observers (used to state claims) -/

/-- Did `parse` return a value (tree list or `ParseFailure`) rather
than terminating with a modeled uncaught exception? -/
def IResult.isOkOrFail : IResult → Bool
  | IResult.ok _ => true
  | IResult.fail _ => true
  | _ => false

/-- The message of a failure outcome, if any. -/
def IResult.failMessage : IResult → Option String
  | IResult.fail f => some f.message
  | _ => none

/-- The context labels of a failure outcome, if any. -/
def IResult.failLabels : IResult → Option (List (Option String))
  | IResult.fail f => some f.labels
  | _ => none

/-- The highlight of a failure outcome, if any. -/
def IResult.failHighlight : IResult → Option PElem
  | IResult.fail f => some f.highlight
  | _ => none

/-! ## Concrete tokens used in the theorems

Token positions follow the real tokenizer on the indicated source
texts (1-based line and column). -/

def numTok (n : Int) (text : String) (line col : Nat) : Token :=
  ⟨text, TValue.intv n, "numeric", line, col⟩

def symTok (s : String) (line col : Nat) : Token :=
  ⟨s, TValue.str s, "symbol", line, col⟩

def wordTok (s : String) (line col : Nat) : Token :=
  ⟨s, TValue.str s, "word", line, col⟩

/-- Tokens of `1 + 2 * 3`. -/
def seqAddMul : List PElem :=
  [PElem.tok (numTok 1 "1" 1 1), PElem.tok (symTok "+" 1 3),
   PElem.tok (numTok 2 "2" 1 5), PElem.tok (symTok "*" 1 7),
   PElem.tok (numTok 3 "3" 1 9)]

/-- Tokens of `2 ^ 3 ^ 2`. -/
def seqExpo : List PElem :=
  [PElem.tok (numTok 2 "2" 1 1), PElem.tok (symTok "^" 1 3),
   PElem.tok (numTok 3 "3" 1 5), PElem.tok (symTok "^" 1 7),
   PElem.tok (numTok 2 "2" 1 9)]

/-- Tokens of `1 - 2 - 3`. -/
def seqSub : List PElem :=
  [PElem.tok (numTok 1 "1" 1 1), PElem.tok (symTok "-" 1 3),
   PElem.tok (numTok 2 "2" 1 5), PElem.tok (symTok "-" 1 7),
   PElem.tok (numTok 3 "3" 1 9)]

/-- Tokens of `f x + 1`. -/
def seqApp : List PElem :=
  [PElem.tok (wordTok "f" 1 1), PElem.tok (wordTok "x" 1 3),
   PElem.tok (symTok "+" 1 5), PElem.tok (numTok 1 "1" 1 7)]

/-- Tokens of `f x y`. -/
def seqAppChain : List PElem :=
  [PElem.tok (wordTok "f" 1 1), PElem.tok (wordTok "x" 1 3),
   PElem.tok (wordTok "y" 1 5)]

/-- Tokens of `(1 + 2) * 3`. -/
def toksParenMul : List Token :=
  [symTok "(" 1 1, numTok 1 "1" 1 2, symTok "+" 1 4, numTok 2 "2" 1 6,
   symTok ")" 1 7, symTok "*" 1 9, numTok 3 "3" 1 11]

/-- Tokens of `[1 + 2]`. -/
def toksBrackets : List Token :=
  [symTok "[" 1 1, numTok 1 "1" 1 2, symTok "+" 1 4, numTok 2 "2" 1 6,
   symTok "]" 1 7]

/-- Tokens of `1 + 2)`. -/
def toksStrayClose : List Token :=
  [numTok 1 "1" 1 1, symTok "+" 1 3, numTok 2 "2" 1 5, symTok ")" 1 6]

/-- Tokens of `(1]`. -/
def toksMismatch : List Token :=
  [symTok "(" 1 1, numTok 1 "1" 1 2, symTok "]" 1 3]

/-- Tokens of `(1 + 2`. -/
def toksUnclosed : List Token :=
  [symTok "(" 1 1, numTok 1 "1" 1 2, symTok "+" 1 4, numTok 2 "2" 1 6]

/-- Tokens of `(1 +)`. -/
def toksParenBin : List Token :=
  [symTok "(" 1 1, numTok 1 "1" 1 2, symTok "+" 1 4, symTok ")" 1 5]

/-- Tokens of `()`. -/
def toksEmptyParen : List Token :=
  [symTok "(" 1 1, symTok ")" 1 2]

/-- The single token of `-` (a prefix operator with no operand). -/
def toksLonePrefixOp : List Token := [symTok "-" 1 1]

/-- Tokens of `:` immediately followed by `=` (columns 1 and 2). -/
def toksColonEq : List Token := [symTok ":" 1 1, symTok "=" 1 2]

/-- Tokens of `: =` (separated by whitespace: columns 1 and 3). -/
def toksColonSpEq : List Token := [symTok ":" 1 1, symTok "=" 1 3]

/-- Tokens of `:` and `=` on different source lines. -/
def toksColonNlEq : List Token := [symTok ":" 1 1, symTok "=" 2 1]

/-- Tokens of `::=` (three single characters, columns 1, 2, 3). -/
def toksColonColonEq : List Token :=
  [symTok ":" 1 1, symTok ":" 1 2, symTok "=" 1 3]

/-- Tokens of `()` viewed only as a non-fusable adjacent symbol pair. -/
def toksParenPair : List Token := [symTok "(" 1 1, symTok ")" 1 2]

/-- The numeric literal `1'000.5` (apostrophe grouping separator). -/
def litGroupedFloat : String :=
  String.mk ['1', GRP_SEPR, '0', '0', '0', '.', '5']

/-- The numeric literal `1'000`. -/
def litGroupedInt : String := String.mk ['1', GRP_SEPR, '0', '0', '0']

/-- Expected tree for `1 + 2 * 3`: multiplication is the deeper subtree. -/
def treeAddMul : PElem :=
  PElem.tree "plus2" [PElem.tok (numTok 1 "1" 1 1),
    PElem.tree "mul2" [PElem.tok (numTok 2 "2" 1 5), PElem.tok (numTok 3 "3" 1 9)]]

/-- Expected tree for `2 ^ 3 ^ 2`: right-associative grouping. -/
def treeExpo : PElem :=
  PElem.tree "expo2" [PElem.tok (numTok 2 "2" 1 1),
    PElem.tree "expo2" [PElem.tok (numTok 3 "3" 1 5), PElem.tok (numTok 2 "2" 1 9)]]

/-- Expected tree for `1 - 2 - 3`: left-associative grouping. -/
def treeSub : PElem :=
  PElem.tree "minus2" [
    PElem.tree "minus2" [PElem.tok (numTok 1 "1" 1 1), PElem.tok (numTok 2 "2" 1 5)],
    PElem.tok (numTok 3 "3" 1 9)]

/-- Expected tree for `f x + 1`: application binds tighter than `+`. -/
def treeAppPlus : PElem :=
  PElem.tree "plus2" [
    PElem.tree "appl2" [PElem.tok (wordTok "f" 1 1), PElem.tok (wordTok "x" 1 3)],
    PElem.tok (numTok 1 "1" 1 7)]

/-- Expected tree for `f x y`: left-chained application. -/
def treeAppChain : PElem :=
  PElem.tree "appl2" [
    PElem.tree "appl2" [PElem.tok (wordTok "f" 1 1), PElem.tok (wordTok "x" 1 3)],
    PElem.tok (wordTok "y" 1 5)]

/-- Expected tree for `(1 + 2) * 3`: the parenthesized sum grouped
under the multiplication, with no parentheses node. -/
def treeParenMul : PElem :=
  PElem.tree "mul2" [
    PElem.tree "plus2" [PElem.tok (numTok 1 "1" 1 2), PElem.tok (numTok 2 "2" 1 6)],
    PElem.tok (numTok 3 "3" 1 11)]

/-- Expected parsed interior of `[1 + 2]`. -/
def treeSum12 : PElem :=
  PElem.tree "plus2" [PElem.tok (numTok 1 "1" 1 2), PElem.tok (numTok 2 "2" 1 6)]

/-- The flat element sequence `1 +` (a binary operator with no
right-hand argument), as handed to `parse_interior`. -/
def seqBinNoRhs : List PElem :=
  [PElem.tok (numTok 1 "1" 1 2), PElem.tok (symTok "+" 1 4)]

/-- The failure `parse_operators` produces on `seqBinNoRhs`. -/
def failBinNoRhs : ParseFailure :=
  ⟨"binary operator missing right-hand argument", PElem.tok (symTok "+" 1 4), []⟩

/-- A single numeric element, used to instantiate universal lemmas. -/
def wNum : PElem := PElem.tok (numTok 7 "7" 1 1)

/-- A token buffer that is not yet complete, over a stream with no
continuation supplier and one pending token. -/
def bufC9 : TokenBuffer :=
  ⟨⟨[wordTok "a" 1 1], false⟩, [wordTok "b" 1 1], false⟩

/-! ## Theorems -/

/-- Helper: the drain loop of `TokenBuffer.complete` appends every
pending token of the stream to the buffer and exhausts the stream. -/
theorem drainLoop_eq (l : List Token) (hm : Bool) (buf : List Token) :
    drainLoop ⟨l, hm⟩ buf = (buf ++ l, ⟨[], hm⟩) := by
  induction l generalizing buf with
  | nil => simp [drainLoop]
  | cons t rest ih => simp [drainLoop, ih]

/-- Helper for C1: the precedence parser returns Python's bare `None`
only when handed an empty sequence — on a non-empty sequence none of
the branches of `_parse_operators` can produce it (the operator loop
never produces it at all; it maps a `None` coming back from a
recursive call to a crash before returning). -/
theorem parseOps_pyNone_only_empty : ∀ fuel : Nat,
    (∀ (seq : List PElem) (minPrec : Nat), seq ≠ [] →
      parseOpsF fuel seq minPrec ≠ PResult.pyNone)
    ∧ (∀ (seq : List PElem) (minPrec : Nat) (lhs : PElem) (index : Nat),
      parseLoopF fuel seq minPrec lhs index ≠ PResult.pyNone)
    ∧ (∀ (seq : List PElem) (minPrec : Nat) (lhs : PElem) (index : Nat),
      parseLoopApp fuel seq minPrec lhs index ≠ PResult.pyNone) := by
  intro fuel
  induction fuel with
  | zero =>
    refine ⟨fun seq minPrec hne => ?_, fun seq minPrec lhs index => ?_,
      fun seq minPrec lhs index => ?_⟩ <;>
      simp [parseOpsF, parseLoopF, parseLoopApp]
  | succ fuel ih =>
    obtain ⟨ihOps, ihLoop, ihApp⟩ := ih
    refine ⟨fun seq minPrec hne => ?_, fun seq minPrec lhs index => ?_,
      fun seq minPrec lhs index => ?_⟩
    · cases seq with
      | nil => exact absurd rfl hne
      | cons first rest =>
        simp only [parseOpsF]
        repeat' split
        all_goals first
          | exact ihLoop _ _ _ _
          | exact ihApp _ _ _ _
          | simp
    · simp only [parseLoopF]
      repeat' split
      all_goals first
        | exact ihLoop _ _ _ _
        | exact ihApp _ _ _ _
        | simp
    · simp only [parseLoopApp]
      repeat' split
      all_goals first
        | exact ihLoop _ _ _ _
        | exact ihApp _ _ _ _
        | simp

/-- C1 (counterexample): contrary to the claim, the top-level `parse`
does not return a parse result or a `ParseFailure` on the empty token
sequence: `_parse_operators` returns `None` there and `parse_operators`
subscripts it, an uncaught TypeError (modeled `crash`). -/
theorem C1_counterexample : (parse ([] : List Token)).isOkOrFail = false := rfl

/-- C1 (amended): `_parse_operators` returns its undefined bare-`None`
result exactly when handed an empty sequence — for every non-empty
sequence, at every fuel and minimum rank, it never returns `None`,
while on the empty sequence it always does — and the top-level `parse`
turns that `None` into an uncaught TypeError (modeled `crash`) instead
of returning a parse result or a `ParseFailure`: concretely `parse`
crashes on the empty input, on the empty bracketed interior of `()`,
and on a prefix operator with no operand, the three ways the claim
itself names for an empty sequence to reach the precedence parser. -/
theorem C1_amended_crashes :
    (∀ (fuel : Nat) (seq : List PElem) (minPrec : Nat), seq ≠ [] →
      parseOpsF fuel seq minPrec ≠ PResult.pyNone)
    ∧ (∀ (fuel minPrec : Nat), 0 < fuel →
      parseOpsF fuel ([] : List PElem) minPrec = PResult.pyNone)
    ∧ parse ([] : List Token) = IResult.crash
    ∧ parse toksEmptyParen = IResult.crash
    ∧ parse toksLonePrefixOp = IResult.crash := by
  refine ⟨fun fuel seq minPrec hne =>
    (parseOps_pyNone_only_empty fuel).1 seq minPrec hne,
    fun fuel minPrec hf => ?_, rfl, rfl, rfl⟩
  match fuel, hf with
  | Nat.succ fuel, _ => rfl

/-- C1 (witness): the amended facts instantiated concretely — at fuel
3 the precedence parser on the one-element sequence `7` does not
return `None`, and at fuel 1 on the empty sequence it does. -/
theorem C1_witness :
    parseOpsF 3 [wNum] 0 ≠ PResult.pyNone
    ∧ parseOpsF 1 ([] : List PElem) 0 = PResult.pyNone :=
  ⟨C1_amended_crashes.1 3 [wNum] 0 (by simp),
   C1_amended_crashes.2.1 1 0 (by decide)⟩

/-- C2: under the configured operator table the precedence parser
resolves `1 + 2 * 3` with the multiplication as the deeper subtree,
`2 ^ 3 ^ 2` right-associatively, and `1 - 2 - 3` left-associatively —
the consequences of recursing at the operator's rank for
right-associative operators and at rank + 1 for left-associative
ones. -/
theorem C2_precedence_examples :
    parse_operators seqAddMul = POResult.ok treeAddMul
    ∧ parse_operators seqExpo = POResult.ok treeExpo
    ∧ parse_operators seqSub = POResult.ok treeSub :=
  ⟨rfl, rfl, rfl⟩

/-- C3 (counterexample): contrary to the claim, a failure does NOT
accumulate context labels while propagating across component
boundaries: the `binary operator missing right-hand argument` failure
arising inside the parentheses of `(1 +)` reaches the caller of
`parse` with an empty label list (no code in the parser ever calls
`mark`). -/
theorem C3_counterexample :
    (parse toksParenBin).failLabels = some []
    ∧ (parse toksParenBin).failMessage =
      some "binary operator missing right-hand argument" :=
  ⟨rfl, rfl⟩

/-- C3 (amended): a `ParseFailure` carries an ordered label list and a
`mark` method that appends one label (so labels marked while unwinding
outward read innermost first), leaving message and highlight
unchanged; the parse pipeline itself propagates a failure completely
unchanged — in particular `parse_interior` returns the inner failure
as is, adding no label. -/
theorem C3_amended_propagation :
    (∀ (container : String) (seq : List PElem) (f : ParseFailure),
      parse_operators seq = POResult.fail f →
        parse_interior container seq = IResult.fail f)
    ∧ (∀ (f : ParseFailure) (lab : Option String),
      (f.mark lab).message = f.message
      ∧ (f.mark lab).highlight = f.highlight
      ∧ (f.mark lab).labels = f.labels ++ [lab]) := by
  constructor
  · intro container seq f h
    unfold parse_interior
    rw [h]
  · intro f lab
    exact ⟨rfl, rfl, rfl⟩

/-- C3 (witness): the amended propagation fact instantiated at the
concrete interior `1 +`, and the `mark` fact at the label
`parentheses`. -/
theorem C3_witness :
    parse_interior "parentheses" seqBinNoRhs = IResult.fail failBinNoRhs
    ∧ (failBinNoRhs.mark (some "parentheses")).labels =
      failBinNoRhs.labels ++ [some "parentheses"] :=
  ⟨C3_amended_propagation.1 "parentheses" seqBinNoRhs failBinNoRhs rfl,
   (C3_amended_propagation.2 failBinNoRhs (some "parentheses")).2.2⟩

/-- C4: at an element boundary that is not a recognized operator the
precedence parser inserts the implicit-application operator, which
binds tighter than arithmetic: `f x + 1` parses as `(f x) + 1`, and
`f x y` chains application on the left (the inner recursion at
application rank + 1 stops before consuming `y`). -/
theorem C4_application :
    parse_operators seqApp = POResult.ok treeAppPlus
    ∧ parse_operators seqAppChain = POResult.ok treeAppChain :=
  ⟨rfl, rfl⟩

/-- C5: `parse_interior` makes parentheses transparent (the interior's
parsed expression passes through unchanged) while bracket and brace
interiors are wrapped in a single new tree labeled `brackets` or
`braces` whose sole child is the parsed interior; concretely,
`(1 + 2) * 3` parses with the sum grouped under the multiplication and
no `parentheses` node anywhere in the output, and `[1 + 2]` parses to
a `brackets` node wrapping the parsed sum. -/
theorem C5_bracket_shaping :
    (∀ (seq : List PElem) (e : PElem), parse_operators seq = POResult.ok e →
      parse_interior "parentheses" seq = IResult.ok [e]
      ∧ parse_interior "brackets" seq = IResult.ok [PElem.tree "brackets" [e]]
      ∧ parse_interior "braces" seq = IResult.ok [PElem.tree "braces" [e]])
    ∧ parse toksParenMul = IResult.ok [treeParenMul]
    ∧ containsLabel "parentheses" treeParenMul = false
    ∧ parse toksBrackets = IResult.ok [PElem.tree "brackets" [treeSum12]] := by
  refine ⟨fun seq e h => ⟨?_, ?_, ?_⟩, rfl, rfl, rfl⟩
  all_goals unfold parse_interior; rw [h]; rfl

/-- C5 (witness): the universal bracket-shaping fact instantiated at
the one-element interior `7`. -/
theorem C5_witness :
    parse_interior "parentheses" [wNum] = IResult.ok [wNum]
    ∧ parse_interior "brackets" [wNum] = IResult.ok [PElem.tree "brackets" [wNum]]
    ∧ parse_interior "braces" [wNum] = IResult.ok [PElem.tree "braces" [wNum]] :=
  C5_bracket_shaping.1 [wNum] wNum rfl

/-- C6 (counterexample): contrary to the claim, the failure produced
for a closing bracket that does not match the expected closer carries
the message `mismatched or unpaired delimiter`, not
`mismatched delimiter`. -/
theorem C6_counterexample :
    (parse toksMismatch).failMessage = some "mismatched or unpaired delimiter"
    ∧ (some "mismatched or unpaired delimiter" : Option String) ≠
      some "mismatched delimiter" :=
  ⟨rfl, by decide⟩

/-- C6 (amended): a closing bracket met with an empty stack yields an
`unpaired delimiter` failure highlighting that closing token
(`1 + 2)` fails at the stray `)`); a closing bracket that does not
match the expected closer yields a `mismatched or unpaired delimiter`
failure highlighting that closing token; a non-empty stack after the
scan yields an `unpaired delimiter` failure highlighting the unclosed
opening token (`(1 + 2` fails at the opening `(`). -/
theorem C6_amended_delimiter_failures :
    parse toksStrayClose =
      IResult.fail ⟨"unpaired delimiter", PElem.tok (symTok ")" 1 6), []⟩
    ∧ parse toksMismatch =
      IResult.fail ⟨"mismatched or unpaired delimiter", PElem.tok (symTok "]" 1 3), []⟩
    ∧ parse toksUnclosed =
      IResult.fail ⟨"unpaired delimiter", PElem.tok (symTok "(" 1 1), []⟩ :=
  ⟨rfl, rfl, rfl⟩

/-- C7: the fusion pass replaces an adjacent same-line pair of symbol
tokens one column apart whose concatenated text is a registered
multi-character spelling by a single fused symbol token (combined text
as both text and value, position of the first), skipping the following
index so fusions never chain (`: : =` gives `::` then a separate `=`);
pairs separated by whitespace, on different lines, or not forming a
registered spelling stay two separate tokens. -/
theorem C7_fusion :
    fuseResult toksColonEq = [⟨":=", TValue.str ":=", "symbol", 1, 1⟩]
    ∧ fuseResult toksColonColonEq =
      [⟨"::", TValue.str "::", "symbol", 1, 1⟩, symTok "=" 1 3]
    ∧ fuseResult toksColonSpEq = toksColonSpEq
    ∧ fuseResult toksColonNlEq = toksColonNlEq
    ∧ fuseResult toksParenPair = toksParenPair :=
  ⟨rfl, rfl, rfl, rfl, rfl⟩

/-- C8: every numeric literal matched by the tokenizer decodes by
stripping the grouping separators and then reading the canonical
literal as a float exactly when a radix point is present and as an
integer otherwise; concretely `1'000.5` decodes to the float 1000.5
(= 2001/2) and `1'000` to the integer 1000. -/
theorem C8_numeric_decoding :
    (∀ (s : String) (line col : Nat) (tok : Token) (rest : String),
      lex_number s line col = some (tok, rest) →
        tok.value = valueOfNumText tok.text)
    ∧ lex_number litGroupedFloat 1 1 =
      some (⟨litGroupedFloat,
             TValue.floatv (floatOfCanonical (stripSeps litGroupedFloat.toList)),
             "numeric", 1, 1⟩, "")
    ∧ floatOfCanonical (stripSeps litGroupedFloat.toList) = (2001 : ℚ) / 2
    ∧ lex_number litGroupedInt 1 1 =
      some (⟨litGroupedInt, TValue.intv 1000, "numeric", 1, 1⟩, "") := by
  refine ⟨fun s line col tok rest h => ?_, rfl, ?_, rfl⟩
  · unfold lex_number at h
    cases hm : num_match s.toList with
    | none => rw [hm] at h; exact absurd h (by simp)
    | some p =>
      obtain ⟨numChars, rest2⟩ := p
      rw [hm] at h
      simp only [Option.some.injEq, Prod.mk.injEq] at h
      rw [← h.1]
  · show (1000 : ℚ) + (5 : ℚ) / 10 ^ 1 = (2001 : ℚ) / 2
    norm_num

/-- C8 (witness): the universal decoding fact instantiated at the
grouped float literal. -/
theorem C8_witness :
    (⟨litGroupedFloat,
      TValue.floatv (floatOfCanonical (stripSeps litGroupedFloat.toList)),
      "numeric", 1, 1⟩ : Token).value =
      valueOfNumText
        (⟨litGroupedFloat,
          TValue.floatv (floatOfCanonical (stripSeps litGroupedFloat.toList)),
          "numeric", 1, 1⟩ : Token).text :=
  C8_numeric_decoding.1 litGroupedFloat 1 1 _ "" C8_numeric_decoding.2.1

/-- C9: the token buffer's length query raises while completion has
not been observed and returns the cached length once the buffer is
complete; `complete` raises when the underlying stream has a
continuation supplier and otherwise pulls every remaining token and
seals the buffer (after which the length query returns the total). -/
theorem C9_buffer_contract :
    (∀ b : TokenBuffer, b.is_complete = false →
      TokenBuffer.length b =
        Except.error "length unknown because buffer has not been completed")
    ∧ (∀ b : TokenBuffer, b.is_complete = true →
      TokenBuffer.length b = Except.ok b.buffer.length)
    ∧ (∀ b : TokenBuffer, b.stream.hasMore = true →
      TokenBuffer.complete b =
        Except.error "cannot complete buffer while self.stream.more is not None")
    ∧ (∀ b : TokenBuffer, b.stream.hasMore = false →
      TokenBuffer.complete b =
        Except.ok ⟨⟨[], b.stream.hasMore⟩, b.buffer ++ b.stream.pending, true⟩
      ∧ TokenBuffer.length
          ⟨⟨[], b.stream.hasMore⟩, b.buffer ++ b.stream.pending, true⟩ =
        Except.ok (b.buffer ++ b.stream.pending).length) := by
  refine ⟨fun b h => ?_, fun b h => ?_, fun b h => ?_, fun b h => ?_⟩
  · simp [TokenBuffer.length, h]
  · simp [TokenBuffer.length, h]
  · simp [TokenBuffer.complete, h]
  · obtain ⟨⟨pending, hasMore⟩, buffer, c⟩ := b
    simp only at h
    subst h
    exact ⟨by simp [TokenBuffer.complete, drainLoop_eq], by simp [TokenBuffer.length]⟩

/-- C9 (witness): the buffer contract instantiated at a concrete
incomplete buffer over a supplier-free stream. -/
theorem C9_witness :
    TokenBuffer.length bufC9 =
      Except.error "length unknown because buffer has not been completed"
    ∧ (TokenBuffer.complete bufC9 =
        Except.ok ⟨⟨[], bufC9.stream.hasMore⟩, bufC9.buffer ++ bufC9.stream.pending, true⟩
      ∧ TokenBuffer.length
          ⟨⟨[], bufC9.stream.hasMore⟩, bufC9.buffer ++ bufC9.stream.pending, true⟩ =
        Except.ok (bufC9.buffer ++ bufC9.stream.pending).length) :=
  ⟨C9_buffer_contract.1 bufC9 rfl, C9_buffer_contract.2.2.2 bufC9 rfl⟩

/-- C10: `parse` mutates its input list in place during operator
fusion: after `parse` returns on the adjacent pair `:` `=`, the
caller's list (modeled by `parse_mutated_input`, the final state of
the mutated list) holds the fused `:=` token in the first slot and
`None` in the second — the later filtering rebinds a new list and
never restores the caller's. -/
theorem C10_mutation :
    parse_mutated_input toksColonEq =
      [some ⟨":=", TValue.str ":=", "symbol", 1, 1⟩, none]
    ∧ fuseTok (symTok ":" 1 1) (symTok "=" 1 2) =
      ⟨":=", TValue.str ":=", "symbol", 1, 1⟩ :=
  ⟨rfl, rfl⟩

end QLDQ
